import Mathlib

/-!
Shallow embedding of the study-assistant dashboard (src/app.py): the model
client `call_study_agent`, the four tab dispatch handlers (question answering,
text summarising, topic notes, quiz generation), and the session reminder list.
The external generative-model provider is modelled as an explicit behaviour
parameter (it either returns a text, possibly absent, or raises an exception
with a message); the credential read from the environment is an optional
string.  Temperatures and sampling thresholds are carried as exact rationals;
no arithmetic is performed on them.
-/

/-- ASCII whitespace characters stripped by Python's str.strip(). -/
def isPySpace (c : Char) : Bool :=
  c = ' ' || c = '\t' || c = '\n' || c = '\r' || c = '\x0b' || c = '\x0c'

/-- Model of Python's str.strip(): drop leading and trailing whitespace
(ASCII whitespace model). -/
def pyStrip (s : String) : String :=
  String.mk (((s.data.dropWhile isPySpace).reverse.dropWhile isPySpace).reverse)

/-- Model of Python truthiness of an optional string: None and the empty
string are falsy (the source guards with `if not GOOGLE_API_KEY`). -/
def pyTruthy : Option String → Bool
  | none => false
  | some s => !s.isEmpty

/-- Process environment as read at startup: os.getenv("GOOGLE_API_KEY"). -/
structure Env where
  GOOGLE_API_KEY : Option String
  deriving DecidableEq, Repr

/-- Behaviour of the external Gemini provider for one call: either the call
returns a response whose .text is an optional string, or some step of the
try-block raises an exception rendered as a message string. -/
inductive ProviderBehavior where
  | success (text : Option String)
  | raise (msg : String)
  deriving DecidableEq, Repr

/-- The genai.types.GenerationConfig built in call_study_agent. -/
structure GenerationConfig where
  temperature : ℚ
  top_p : ℚ
  top_k : ℕ
  max_output_tokens : ℕ
  deriving DecidableEq, Repr

/-- Tagged outcome of one model-client call: success text or failure reason.
In the source both are carried as the returned display string; render gives
that string back. -/
inductive GenerationResult where
  | ok (text : String)
  | err (reason : String)
  deriving DecidableEq, Repr

/-- The string call_study_agent actually returns for a given outcome. -/
def GenerationResult.render : GenerationResult → String
  | .ok text => text
  | .err reason => reason

/-- The error string returned when GOOGLE_API_KEY is not configured. -/
def keyErrorMessage : String :=
  "ERROR: GOOGLE_API_KEY is not set. Please configure your .env file."

/-- Observable outcome of one call_study_agent invocation: the tagged result,
how many provider calls were attempted, and what model, generation config and
combined prompt were handed to the provider (none when no call was made). -/
structure CallResult where
  result : GenerationResult
  networkCalls : ℕ
  sentModel : Option String
  sentConfig : Option GenerationConfig
  sentPrompt : Option String
  deriving DecidableEq, Repr

/-- Embedding of call_study_agent (src/app.py lines 22-47): return an error
string when the key is missing, otherwise build the generation config and the
combined System/User prompt, attempt the provider call, strip the returned
text on success and convert any exception into an error string. -/
def call_study_agent (env : Env) (provider : ProviderBehavior)
    (system_prompt user_prompt : String) (model : String) (temperature : ℚ) :
    CallResult :=
  if !pyTruthy env.GOOGLE_API_KEY then
    { result := .err keyErrorMessage, networkCalls := 0,
      sentModel := none, sentConfig := none, sentPrompt := none }
  else
    let generation_config : GenerationConfig :=
      { temperature := temperature, top_p := 0.95, top_k := 40,
        max_output_tokens := 1024 }
    let prompt := "System: " ++ system_prompt ++ "\n\nUser: " ++ user_prompt
    match provider with
    | .success text =>
        { result := .ok (pyStrip (text.getD "")), networkCalls := 1,
          sentModel := some model, sentConfig := some generation_config,
          sentPrompt := some prompt }
    | .raise msg =>
        { result := .err ("Error calling model: " ++ msg), networkCalls := 1,
          sentModel := some model, sentConfig := some generation_config,
          sentPrompt := some prompt }

/-- TaskKind of the spec: the four user-triggered tasks. -/
inductive TaskKind where
  | answerQuestion
  | summarizeText
  | generateTopicNotes
  | generateQuiz
  deriving DecidableEq, Repr

/-- Per-kind task parameters as read from the widgets of each tab. -/
inductive TaskParameters where
  | qa (subject question level style : String)
  | summarize (text summaryLength : String) (highlight : Bool)
  | notes (topic depth : String)
  | quiz (topic : String) (questionCount : ℕ) (quizType difficulty : String)
  deriving DecidableEq, Repr

/-- Kind of a parameter record. -/
def TaskParameters.kind : TaskParameters → TaskKind
  | .qa .. => .answerQuestion
  | .summarize .. => .summarizeText
  | .notes .. => .generateTopicNotes
  | .quiz .. => .generateQuiz

/-- The kind-specific required free-text field each handler validates. -/
def TaskParameters.requiredField : TaskParameters → String
  | .qa _ question _ _ => question
  | .summarize text _ _ => text
  | .notes topic _ => topic
  | .quiz topic _ _ _ => topic

/-- The warning each handler shows when its required field strips to empty. -/
def validationMessage : TaskParameters → String
  | .qa .. => "Please enter a question."
  | .summarize .. => "Please paste some text to summarize."
  | .notes .. => "Please enter a topic."
  | .quiz .. => "Please enter a quiz topic."

/-- System prompt of the Get Answer handler (src/app.py lines 241-247). -/
def qaSystemPrompt (level style studyMode : String) : String :=
  "You are a helpful personal study assistant for students. " ++
  "Explain concepts clearly, with examples. Adapt your explanation " ++
  "to a " ++ level ++ " student and keep the tone encouraging. " ++
  "Explanation style: " ++ style ++ ". " ++
  "Overall study mode: " ++ studyMode ++ "."

/-- User prompt of the Get Answer handler (src/app.py line 248). -/
def qaUserPrompt (subject question : String) : String :=
  "Subject: " ++ subject ++ "\nQuestion: " ++ question

/-- System prompt of the Generate Summary handler (src/app.py lines 290-296). -/
def summarizeSystemPrompt (summaryLength : String) (highlight : Bool)
    (studyMode : String) : String :=
  "You are an AI note-taker. Summarize the input text into clear study notes.\n" ++
  "- Summary length: " ++ summaryLength ++ ".\n" ++
  "- Highlight key terms: " ++ (if highlight then "yes" else "no") ++ ".\n" ++
  "- Overall study mode: " ++ studyMode ++ ".\n" ++
  "- Use headings and bullet points where helpful."

/-- System prompt of the Generate Topic Notes handler (src/app.py 322-328). -/
def notesSystemPrompt (depth studyMode : String) : String :=
  "You are an expert tutor. Create structured study notes on the given topic.\n" ++
  "- Use headings and bullet points.\n" ++
  "- Include definitions, key formulas or dates, and simple examples.\n" ++
  "- Depth: " ++ depth ++ ".\n" ++
  "- Overall study mode: " ++ studyMode ++ "."

/-- User prompt of the Generate Topic Notes handler (src/app.py line 329). -/
def notesUserPrompt (topic : String) : String :=
  "Create study notes on: " ++ topic

/-- System prompt of the Generate Quiz handler (src/app.py lines 364-371). -/
def quizSystemPrompt (quizType difficulty studyMode : String) : String :=
  "You are an AI quiz generator for students.\n" ++
  "Create a quiz in Markdown format. Include clear numbering.\n" ++
  "- Question type: " ++ quizType ++ ".\n" ++
  "- Difficulty: " ++ difficulty ++ ".\n" ++
  "- Overall study mode: " ++ studyMode ++ ".\n" ++
  "- After the questions, provide an answer key clearly separated."

/-- User prompt of the Generate Quiz handler (src/app.py lines 372-375). -/
def quizUserPrompt (questionCount : ℕ) (topic : String) : String :=
  "Create a " ++ toString questionCount ++
  "-question quiz on the topic: " ++ topic ++ ".\n" ++
  "Use friendly wording appropriate for students."

/-- Sidebar-wide options read by every handler: the selected Gemini model,
the temperature slider and the study mode. -/
structure GlobalOptions where
  model : String
  temperature : ℚ
  studyMode : String
  deriving DecidableEq, Repr

/-- The (systemPrompt, userPrompt) pair each handler builds, as a function of
the study mode and the task parameters (the PromptBuilder of the spec). -/
def buildPrompts (studyMode : String) : TaskParameters → String × String
  | .qa subject question level style =>
      (qaSystemPrompt level style studyMode, qaUserPrompt subject question)
  | .summarize text summaryLength highlight =>
      (summarizeSystemPrompt summaryLength highlight studyMode, text)
  | .notes topic depth =>
      (notesSystemPrompt depth studyMode, notesUserPrompt topic)
  | .quiz topic questionCount quizType difficulty =>
      (quizSystemPrompt quizType difficulty studyMode,
       quizUserPrompt questionCount topic)

/-- Observable outcome of one button-press dispatch: the displayed string,
whether it was a validation warning, how many call_study_agent invocations
happened, and which prompt pair was built (none when validation failed). -/
structure Dispatch where
  display : String
  isValidationError : Bool
  modelCalls : ℕ
  builtPrompts : Option (String × String)
  deriving DecidableEq, Repr

/-- Embedding of the four tab handlers (src/app.py lines 237-257, 286-305,
318-338 and 360-384): if the required field strips to empty, warn and stop;
otherwise build the prompts, call call_study_agent with the sidebar model and
temperature and display its returned string unchanged. -/
def dispatch (env : Env) (provider : ProviderBehavior) (opts : GlobalOptions)
    (params : TaskParameters) : Dispatch :=
  if pyStrip params.requiredField = "" then
    { display := validationMessage params, isValidationError := true,
      modelCalls := 0, builtPrompts := none }
  else
    let p := buildPrompts opts.studyMode params
    let r := call_study_agent env provider p.1 p.2 opts.model opts.temperature
    { display := r.result.render, isValidationError := false,
      modelCalls := 1, builtPrompts := some p }

/-- One stored reminder (src/app.py lines 401-407): stripped text, the date
rendered by isoformat() and the time rendered by strftime, both carried here
as the already-formatted strings. -/
structure ReminderRecord where
  text : String
  date : String
  time : String
  deriving DecidableEq, Repr

/-- Outcome of the Add Reminder button: a warning or a success message. -/
inductive AddOutcome where
  | warning (msg : String)
  | added (msg : String)
  deriving DecidableEq, Repr

/-- Embedding of the Add Reminder handler (src/app.py lines 397-408): warn
and leave the list alone when the text strips to empty, otherwise append one
record holding the stripped text. -/
def addReminder (store : List ReminderRecord) (text date time : String) :
    List ReminderRecord × AddOutcome :=
  if pyStrip text = "" then
    (store, .warning "Please enter a reminder.")
  else
    (store ++ [{ text := pyStrip text, date := date, time := time }],
     .added "Reminder added!")

/-- Embedding of the Clear All Reminders handler (src/app.py lines 417-418):
replace the session list with the empty list. -/
def clearAllReminders (_ : List ReminderRecord) : List ReminderRecord := []

/-- C1: for every task kind, dispatching while the kind-specific required
free-text field strips to empty yields the handler's validation warning,
builds no prompt pair and performs zero call_study_agent invocations. -/
theorem dispatch_blank_input_is_validation_error
    (env : Env) (provider : ProviderBehavior) (opts : GlobalOptions)
    (params : TaskParameters) (h : pyStrip params.requiredField = "") :
    (dispatch env provider opts params).isValidationError = true ∧
    (dispatch env provider opts params).modelCalls = 0 ∧
    (dispatch env provider opts params).builtPrompts = none ∧
    (dispatch env provider opts params).display = validationMessage params := by
  unfold dispatch
  rw [if_pos h]
  exact ⟨rfl, rfl, rfl, rfl⟩

/-- C1 witness: blank required fields of all four kinds trigger zero model
calls at concrete inputs. -/
theorem dispatch_blank_input_is_validation_error_witness :
    (dispatch ⟨some "key"⟩ (.success (some "hi"))
        ⟨"gemini-2.0-flash", 7/10, "Balanced"⟩
        (.qa "Calculus" "   " "School" "Step-by-step")).modelCalls = 0 ∧
    (dispatch ⟨some "key"⟩ (.success (some "hi"))
        ⟨"gemini-2.0-flash", 7/10, "Balanced"⟩
        (.summarize "\n\t " "Short" true)).modelCalls = 0 ∧
    (dispatch ⟨some "key"⟩ (.success (some "hi"))
        ⟨"gemini-2.0-flash", 7/10, "Balanced"⟩
        (.notes "" "Standard")).modelCalls = 0 ∧
    (dispatch ⟨some "key"⟩ (.success (some "hi"))
        ⟨"gemini-2.0-flash", 7/10, "Balanced"⟩
        (.quiz " " 5 "Multiple choice" "Medium")).modelCalls = 0 :=
  ⟨(dispatch_blank_input_is_validation_error _ _ _ _ (by decide)).2.1,
   (dispatch_blank_input_is_validation_error _ _ _ _ (by decide)).2.1,
   (dispatch_blank_input_is_validation_error _ _ _ _ (by decide)).2.1,
   (dispatch_blank_input_is_validation_error _ _ _ _ (by decide)).2.1⟩

/-- C2: with no configured credential (absent or empty GOOGLE_API_KEY),
call_study_agent returns the missing-key error result with zero network
calls and nothing sent to the provider, regardless of prompts, model and
temperature. -/
theorem generate_without_credential_errs_no_network
    (env : Env) (provider : ProviderBehavior)
    (system_prompt user_prompt model : String) (temperature : ℚ)
    (h : pyTruthy env.GOOGLE_API_KEY = false) :
    call_study_agent env provider system_prompt user_prompt model temperature =
      { result := .err keyErrorMessage, networkCalls := 0,
        sentModel := none, sentConfig := none, sentPrompt := none } := by
  simp [call_study_agent, h]

/-- C2 witness: an unset key at a concrete request yields the error result
with zero network calls. -/
theorem generate_without_credential_errs_no_network_witness :
    call_study_agent ⟨none⟩ (.success (some "hi")) "sys" "usr"
        "gemini-2.0-flash" (7/10) =
      { result := .err keyErrorMessage, networkCalls := 0,
        sentModel := none, sentConfig := none, sentPrompt := none } :=
  generate_without_credential_errs_no_network ⟨none⟩ (.success (some "hi"))
    "sys" "usr" "gemini-2.0-flash" (7/10) (by decide)

/-- C3: whenever the provider call raises (auth rejection, network error,
malformed response), call_study_agent catches it and returns an err result
carrying the rendered exception message; being a total embedded function it
always returns a CallResult and never propagates the fault. -/
theorem generate_catches_provider_fault
    (env : Env) (system_prompt user_prompt model : String) (temperature : ℚ)
    (msg : String) (h : pyTruthy env.GOOGLE_API_KEY = true) :
    (call_study_agent env (.raise msg) system_prompt user_prompt model
        temperature).result = .err ("Error calling model: " ++ msg) := by
  simp [call_study_agent, h]

/-- C3 witness: a concrete provider exception is converted to an err result. -/
theorem generate_catches_provider_fault_witness :
    (call_study_agent ⟨some "key"⟩ (.raise "403 PERMISSION_DENIED") "sys"
        "usr" "gemini-2.0-flash" (7/10)).result =
      .err ("Error calling model: " ++ "403 PERMISSION_DENIED") :=
  generate_catches_provider_fault ⟨some "key"⟩ "sys" "usr" "gemini-2.0-flash"
    (7/10) "403 PERMISSION_DENIED" (by decide)

/-- C4: on a valid (non-blank required field) dispatch, the result of
call_study_agent on the built prompts is a tagged ok-or-err value and the
displayed string is exactly its rendering, forwarded unchanged. -/
theorem dispatch_forwards_model_result
    (env : Env) (provider : ProviderBehavior) (opts : GlobalOptions)
    (params : TaskParameters) (h : pyStrip params.requiredField ≠ "") :
    ∃ g : GenerationResult,
      (call_study_agent env provider (buildPrompts opts.studyMode params).1
          (buildPrompts opts.studyMode params).2 opts.model
          opts.temperature).result = g ∧
      (dispatch env provider opts params).display = g.render ∧
      ((∃ t, g = .ok t) ∨ (∃ r, g = .err r)) := by
  refine ⟨(call_study_agent env provider (buildPrompts opts.studyMode params).1
    (buildPrompts opts.studyMode params).2 opts.model opts.temperature).result,
    rfl, ?_, ?_⟩
  · simp [dispatch, h]
  · cases (call_study_agent env provider (buildPrompts opts.studyMode params).1
        (buildPrompts opts.studyMode params).2 opts.model
        opts.temperature).result with
    | ok t => exact Or.inl ⟨t, rfl⟩
    | err r => exact Or.inr ⟨r, rfl⟩

/-- C4 witness: a concrete valid question dispatch forwards the stubbed
model answer unchanged. -/
theorem dispatch_forwards_model_result_witness :
    ∃ g : GenerationResult,
      (call_study_agent ⟨some "key"⟩ (.success (some "A derivative measures..."))
          (buildPrompts "Balanced"
            (.qa "Calculus" "What is a derivative?" "School" "Simple")).1
          (buildPrompts "Balanced"
            (.qa "Calculus" "What is a derivative?" "School" "Simple")).2
          "gemini-2.0-flash" (7/10)).result = g ∧
      (dispatch ⟨some "key"⟩ (.success (some "A derivative measures..."))
          ⟨"gemini-2.0-flash", 7/10, "Balanced"⟩
          (.qa "Calculus" "What is a derivative?" "School" "Simple")).display =
        g.render ∧
      ((∃ t, g = .ok t) ∨ (∃ r, g = .err r)) :=
  dispatch_forwards_model_result ⟨some "key"⟩
    (.success (some "A derivative measures..."))
    ⟨"gemini-2.0-flash", 7/10, "Balanced"⟩
    (.qa "Calculus" "What is a derivative?" "School" "Simple") (by decide)

/-- C5: the built prompt pair is a pure function of the task parameters and
the study mode alone: it is unchanged under any change of credential,
provider behaviour, model choice or temperature, so identical inputs always
produce identical (systemPrompt, userPrompt) pairs. -/
theorem prompt_construction_pure
    (env env' : Env) (provider provider' : ProviderBehavior)
    (opts opts' : GlobalOptions) (params : TaskParameters)
    (h : opts.studyMode = opts'.studyMode) :
    (dispatch env provider opts params).builtPrompts =
      (dispatch env' provider' opts' params).builtPrompts := by
  by_cases hb : pyStrip params.requiredField = "" <;> simp [dispatch, hb, h]

/-- C5 witness: two dispatches differing in credential, provider behaviour,
model and temperature build the same prompt pair. -/
theorem prompt_construction_pure_witness :
    (dispatch ⟨some "key"⟩ (.success (some "a"))
        ⟨"gemini-2.0-flash", 7/10, "Balanced"⟩
        (.notes "Neural Networks" "Standard")).builtPrompts =
      (dispatch ⟨none⟩ (.raise "boom") ⟨"gemini-2.0-pro", 1/10, "Balanced"⟩
        (.notes "Neural Networks" "Standard")).builtPrompts :=
  prompt_construction_pure ⟨some "key"⟩ ⟨none⟩ (.success (some "a"))
    (.raise "boom") ⟨"gemini-2.0-flash", 7/10, "Balanced"⟩
    ⟨"gemini-2.0-pro", 1/10, "Balanced"⟩ (.notes "Neural Networks" "Standard")
    (by decide)

/-- C6: with a configured key, a successful provider response yields an ok
result holding the response text stripped of surrounding whitespace, and an
absent (null) response text yields ok of the empty string, not an error. -/
theorem generate_success_trims_text
    (env : Env) (txt : Option String)
    (system_prompt user_prompt model : String) (temperature : ℚ)
    (h : pyTruthy env.GOOGLE_API_KEY = true) :
    (call_study_agent env (.success txt) system_prompt user_prompt model
        temperature).result = .ok (pyStrip (txt.getD "")) ∧
    (call_study_agent env (.success none) system_prompt user_prompt model
        temperature).result = .ok "" := by
  constructor
  · simp [call_study_agent, h]
  · simp [call_study_agent, h]
    decide

/-- C6 witness: a concrete padded response is trimmed, and pyStrip indeed
maps the padded text to its trimmed core. -/
theorem generate_success_trims_text_witness :
    ((call_study_agent ⟨some "key"⟩ (.success (some "  hello\n")) "sys" "usr"
        "gemini-2.0-flash" (7/10)).result =
      .ok (pyStrip ((some "  hello\n" : Option String).getD "")) ∧
     (call_study_agent ⟨some "key"⟩ (.success none) "sys" "usr"
        "gemini-2.0-flash" (7/10)).result = .ok "") ∧
    pyStrip ((some "  hello\n" : Option String).getD "") = "hello" :=
  ⟨generate_success_trims_text ⟨some "key"⟩ (some "  hello\n") "sys" "usr"
    "gemini-2.0-flash" (7/10) (by decide), by decide⟩

/-- C7: dispatching a quiz on Photosynthesis with 5 questions builds the quiz
user prompt, which contains the literal substring
5-question quiz on the topic: Photosynthesis; in general the quiz user
prompt embeds the chosen count and topic in that template. -/
theorem quiz_dispatch_prompt_contains_topic
    (env : Env) (provider : ProviderBehavior) (opts : GlobalOptions) :
    ((dispatch env provider opts
        (.quiz "Photosynthesis" 5 "Multiple choice" "Medium")).builtPrompts =
      some (quizSystemPrompt "Multiple choice" "Medium" opts.studyMode,
            quizUserPrompt 5 "Photosynthesis") ∧
     (∃ a b : String, quizUserPrompt 5 "Photosynthesis" =
        a ++ "5-question quiz on the topic: Photosynthesis" ++ b)) ∧
    ∀ (n : ℕ) (topic : String), ∃ a b : String,
      quizUserPrompt n topic =
        a ++ (toString n ++ "-question quiz on the topic: " ++ topic) ++ b := by
  refine ⟨⟨?_, ⟨"Create a ",
    ".\nUse friendly wording appropriate for students.", by decide⟩⟩, ?_⟩
  · unfold dispatch
    rw [if_neg (by decide)]
    rfl
  · intro n topic
    refine ⟨"Create a ", ".\nUse friendly wording appropriate for students.",
      ?_⟩
    simp [quizUserPrompt, String.append_assoc]

/-- C8: adding a reminder whose text strips to empty warns and leaves the
store unchanged; adding non-blank text with a date and a time appends exactly
one record (the count grows by one), keeps every prior entry in place and in
order, and stores the stripped text. -/
theorem add_reminder_spec (store : List ReminderRecord)
    (text date time : String) :
    (pyStrip text = "" →
      addReminder store text date time =
        (store, .warning "Please enter a reminder.")) ∧
    (pyStrip text ≠ "" →
      (addReminder store text date time).1 =
        store ++ [{ text := pyStrip text, date := date, time := time }] ∧
      (addReminder store text date time).1.length = store.length + 1 ∧
      (addReminder store text date time).2 = .added "Reminder added!") := by
  constructor
  · intro h
    simp [addReminder, h]
  · intro h
    refine ⟨?_, ?_, ?_⟩ <;> simp [addReminder, h]

/-- C8 witness: whitespace-only text leaves a one-element store untouched;
the text Revise ch.3 appends exactly one record after the prior entry. -/
theorem add_reminder_spec_witness :
    (addReminder [⟨"old", "2026-10-11", "09:00"⟩] " " "2026-10-12" "18:00" =
      ([⟨"old", "2026-10-11", "09:00"⟩], .warning "Please enter a reminder.")) ∧
    ((addReminder [⟨"old", "2026-10-11", "09:00"⟩] "Revise ch.3" "2026-10-12"
        "18:00").1 =
      [⟨"old", "2026-10-11", "09:00"⟩] ++
        [{ text := pyStrip "Revise ch.3", date := "2026-10-12",
           time := "18:00" }] ∧
     (addReminder [⟨"old", "2026-10-11", "09:00"⟩] "Revise ch.3" "2026-10-12"
        "18:00").1.length = [(⟨"old", "2026-10-11", "09:00"⟩ :
          ReminderRecord)].length + 1 ∧
     (addReminder [⟨"old", "2026-10-11", "09:00"⟩] "Revise ch.3" "2026-10-12"
        "18:00").2 = .added "Reminder added!") :=
  ⟨(add_reminder_spec [⟨"old", "2026-10-11", "09:00"⟩] " " "2026-10-12"
      "18:00").1 (by decide),
   (add_reminder_spec [⟨"old", "2026-10-11", "09:00"⟩] "Revise ch.3"
      "2026-10-12" "18:00").2 (by decide)⟩

/-- C9: clearing the reminders always leaves a store of count 0, clearing is
idempotent, and clearing an already-empty store returns it unchanged. -/
theorem clear_all_reminders_spec (store : List ReminderRecord) :
    (clearAllReminders store).length = 0 ∧
    clearAllReminders (clearAllReminders store) = clearAllReminders store ∧
    clearAllReminders ([] : List ReminderRecord) = [] :=
  ⟨rfl, rfl, rfl⟩

/-- C10: with a configured key, every call_study_agent invocation hands the
provider a generation config whose parameters beyond the temperature are the
fixed constants top_p 0.95, top_k 40 and max_output_tokens 1024, whatever the
prompts, model, temperature and provider behaviour. -/
theorem generation_config_constants
    (env : Env) (provider : ProviderBehavior)
    (system_prompt user_prompt model : String) (temperature : ℚ)
    (h : pyTruthy env.GOOGLE_API_KEY = true) :
    (call_study_agent env provider system_prompt user_prompt model
        temperature).sentConfig =
      some { temperature := temperature, top_p := 0.95, top_k := 40,
             max_output_tokens := 1024 } := by
  cases provider <;> simp [call_study_agent, h]

/-- C10 witness: a concrete call sends exactly the fixed sampling constants
alongside the chosen temperature. -/
theorem generation_config_constants_witness :
    (call_study_agent ⟨some "key"⟩ (.success (some "hi")) "sys" "usr"
        "gemini-2.0-pro" (3/10)).sentConfig =
      some { temperature := 3/10, top_p := 0.95, top_k := 40,
             max_output_tokens := 1024 } :=
  generation_config_constants ⟨some "key"⟩ (.success (some "hi")) "sys" "usr"
    "gemini-2.0-pro" (3/10) (by decide)
